import Mathlib

/-!
Verification of the digenv pipeline program (src/lab 1/digenv.c).

The program builds the process pipeline
  printenv [| grep ARGS] | sort | pager
by hand: it allocates three pipes, forks one child per stage, wires each
stage onto its neighbours, closes descriptors, and finally reaps all
children into a single exit status.  The definitions below are a shallow
embedding of that C source: each definition is translated line by line
from the corresponding block of digenv.c.
-/

/-- The two standard streams a diagnostic message can be written to
(printf writes to stdout, perror writes to stderr). -/
inductive StdStream
  | stdout
  | stderr
deriving DecidableEq

/-- Which of the two printf diagnostics in the wait loop was emitted:
the WIFEXITED branch or the WIFSIGNALED branch of digenv.c. -/
inductive DiagKind
  | exitFailure
  | signalFailure
deriving DecidableEq

/-- A structured record of one diagnostic printed by the wait loop of
digenv.c.  The stream records which output function was used (printf
goes to stdout), and the code and pid fields record the two integers
interpolated into the format string. -/
structure Diag where
  stream : StdStream
  kind : DiagKind
  code : Nat
  pid : Nat
deriving DecidableEq

/-- How one reaped child terminated, as classified by the wait loop of
digenv.c: WIFEXITED with WEXITSTATUS code, or WIFSIGNALED with WTERMSIG
sig.  The pid is the value returned by wait. -/
inductive ChildOutcome
  | exited (code : Nat) (pid : Nat)
  | signaled (sig : Nat) (pid : Nat)
deriving DecidableEq

/-- The pid the wait call reported for this outcome. -/
def ChildOutcome.pid : ChildOutcome → Nat
  | .exited _ p => p
  | .signaled _ p => p

/-- True when the outcome is a normal exit with a non-zero code, the
only kind of outcome that the wait loop of digenv.c ever assigns to
exit_value. -/
def isNonzeroExit : ChildOutcome → Bool
  | .exited c _ => c != 0
  | .signaled _ _ => false

/-- True when the outcome is a normal exit with code 0, the only kind
of outcome that produces neither a diagnostic nor a status change in
the wait loop of digenv.c. -/
def ChildOutcome.isCleanExit : ChildOutcome → Bool
  | .exited 0 _ => true
  | _ => false

/-- One iteration of the wait loop of digenv.c (lines 269-292),
translated statement by statement.  Note that in the WIFSIGNALED branch
the source reads `exit_value == child_status;` - a comparison used as a
statement, which has no effect - so exit_value is returned unchanged
there, while the diagnostic printf still runs.  Both diagnostics are
printed with printf, hence to stdout. -/
def reapStep (exit_value : Nat) : ChildOutcome → Nat × List Diag
  | .exited child_status pid =>
      if exit_value = 0 ∧ child_status ≠ 0 then
        (child_status, [⟨StdStream.stdout, DiagKind.exitFailure, child_status, pid⟩])
      else
        (exit_value, [])
  | .signaled child_status pid =>
      if exit_value = 0 then
        (exit_value, [⟨StdStream.stdout, DiagKind.signalFailure, child_status, pid⟩])
      else
        (exit_value, [])

/-- The wait loop of digenv.c run over a list of reaped outcomes (in
reap order), threading exit_value and collecting the printed
diagnostics in order. -/
def reapList (exit_value : Nat) : List ChildOutcome → Nat × List Diag
  | [] => (exit_value, [])
  | oc :: rest =>
      ((reapList (reapStep exit_value oc).1 rest).1,
       (reapStep exit_value oc).2 ++ (reapList (reapStep exit_value oc).1 rest).2)

/-- The whole wait loop of digenv.c: exit_value starts at 0. -/
def reapAll (outcomes : List ChildOutcome) : Nat × List Diag :=
  reapList 0 outcomes

theorem reapList_append (ev : Nat) (l1 l2 : List ChildOutcome) :
    reapList ev (l1 ++ l2)
      = ((reapList (reapList ev l1).1 l2).1,
         (reapList ev l1).2 ++ (reapList (reapList ev l1).1 l2).2) := by
  induction l1 generalizing ev with
  | nil => simp [reapList]
  | cons oc rest ih => simp [reapList, ih, List.append_assoc]

theorem reapList_of_ne (ev : Nat) (l : List ChildOutcome) (h : ev ≠ 0) :
    reapList ev l = (ev, []) := by
  induction l with
  | nil => simp [reapList]
  | cons oc rest ih =>
      cases oc with
      | exited c p => simp [reapList, reapStep, h, ih]
      | signaled s p => simp [reapList, reapStep, h, ih]

theorem reapList_clean_fst (pre : List ChildOutcome)
    (h : ∀ oc ∈ pre, isNonzeroExit oc = false) :
    (reapList 0 pre).1 = 0 := by
  induction pre with
  | nil => simp [reapList]
  | cons oc rest ih =>
      have hoc := h oc (by simp)
      have hrest : ∀ x ∈ rest, isNonzeroExit x = false := by
        intro x hx
        exact h x (by simp [hx])
      cases oc with
      | exited c p =>
          have hc : c = 0 := by
            by_contra hne
            simp [isNonzeroExit, hne] at hoc
          subst hc
          simpa [reapList, reapStep] using ih hrest
      | signaled s p =>
          simpa [reapList, reapStep] using ih hrest

/-- The role of one stage of the pipeline, in pipeline order. -/
inductive Role
  | source
  | filter
  | sortStage
  | sink
deriving DecidableEq

/-- One stage as spawned by main: its role, the command name passed to
execlp or execvp, and the full argument vector passed to it. -/
structure Stage where
  role : Role
  cmd : String
  argv : List String
deriving DecidableEq

/-- Line 85 of digenv.c: `int grep = argc > 1 ? 1 : 0;`. -/
def grepFlag (argc : Nat) : Bool :=
  decide (argc > 1)

/-- The sequence of stages main forks, in spawn order, for a given
argument vector argv (argv includes the program name in position 0, as
in C).  The printenv child runs execlp("printenv", "printenv"); the
grep child is forked only when grepFlag holds and runs
execvp("grep", argv) with the whole original argv; the sort child runs
execlp("sort", "sort"); the sink child resolves its command at run time
(see pagerChain), so its command and argv are recorded as empty here. -/
def digenvStages (argv : List String) : List Stage :=
  [⟨Role.source, "printenv", ["printenv"]⟩]
    ++ (if grepFlag argv.length then [⟨Role.filter, "grep", argv⟩] else [])
    ++ [⟨Role.sortStage, "sort", ["sort"]⟩, ⟨Role.sink, "", []⟩]

/-- The result of running one stage body: either the process image was
replaced (exec succeeded and never returns), or the process called
exit, or - the case the source must never reach - control fell out of
the child branch back into the pipeline-builder code of main. -/
inductive ProcResult
  | execed (prog : String) (argv : List String)
  | exited (code : Nat)
  | fellThrough
deriving DecidableEq

/-- check_sys_return (lines 67-74 of digenv.c): given a system call
return value, if it is -1 it perrors the message (to stderr) and exits
with status 1; otherwise it does nothing. -/
def check_sys_return (sys_ret : Int) (error_string : String) :
    Option (ProcResult × (StdStream × String)) :=
  if sys_ret = -1 then
    some (ProcResult.exited 1, (StdStream.stderr, error_string))
  else
    none

/-- One observable event inside the sink (pager) child: a message
written to a stream, or an execlp attempt of a program. -/
inductive SinkEvent
  | wrote (stream : StdStream) (msg : String)
  | execAttempt (prog : String)
deriving DecidableEq

/-- The pager-resolution block of the sink child (lines 241-252 of
digenv.c), translated from the straight-line fallthrough of execlp
calls: getenv("PAGER") is pagerEnv (none when the variable is unset,
some v when set to v, including the empty string); execOk tells which
program names execlp succeeds on.  When PAGER is set, the child first
printfs "Found PAGER: " and the value to stdout, then attempts the
named program; each failed execlp returns and falls through to the
next; after the last, perror writes to stderr and the child exits 1. -/
def pagerChain (pagerEnv : Option String) (execOk : String → Bool) :
    ProcResult × List SinkEvent :=
  match pagerEnv with
  | some pager =>
      let found := SinkEvent.wrote StdStream.stdout ("Found PAGER: " ++ pager)
      if execOk pager then
        (ProcResult.execed pager [pager], [found, SinkEvent.execAttempt pager])
      else if execOk "less" then
        (ProcResult.execed "less" ["less"],
         [found, SinkEvent.execAttempt pager, SinkEvent.execAttempt "less"])
      else if execOk "more" then
        (ProcResult.execed "more" ["more"],
         [found, SinkEvent.execAttempt pager, SinkEvent.execAttempt "less",
          SinkEvent.execAttempt "more"])
      else
        (ProcResult.exited 1,
         [found, SinkEvent.execAttempt pager, SinkEvent.execAttempt "less",
          SinkEvent.execAttempt "more",
          SinkEvent.wrote StdStream.stderr "Problem with call to pager"])
  | none =>
      if execOk "less" then
        (ProcResult.execed "less" ["less"], [SinkEvent.execAttempt "less"])
      else if execOk "more" then
        (ProcResult.execed "more" ["more"],
         [SinkEvent.execAttempt "less", SinkEvent.execAttempt "more"])
      else
        (ProcResult.exited 1,
         [SinkEvent.execAttempt "less", SinkEvent.execAttempt "more",
          SinkEvent.wrote StdStream.stderr "Problem with call to pager"])

/-- Projection of a sink event to an exec attempt, when it is one. -/
def attemptOf : SinkEvent → Option String
  | .execAttempt p => some p
  | .wrote _ _ => none

/-- The sequence of programs the sink child attempts to exec, in
order, for a given PAGER value and executability of programs. -/
def sinkAttempts (pagerEnv : Option String) (execOk : String → Bool) : List String :=
  ((pagerChain pagerEnv execOk).2).filterMap attemptOf

/-- The fixed pager candidate order of the specification: the PAGER
value when the variable is set, then less, then more.  This definition
follows the words of the spec (section 4.4) and is compared against
pagerChain, which is translated from the source. -/
def pagerCandidates (pagerEnv : Option String) : List String :=
  match pagerEnv with
  | some pager => [pager, "less", "more"]
  | none => ["less", "more"]

/-- The printenv child body (lines 104-126 of digenv.c): dup2 of the
write side of pipe 0 onto stdout, two closes, each checked by
check_sys_return, then execlp("printenv", "printenv"); if execlp
returns, perror and exit 1.  The Int arguments are the return values of
the three system calls and execOk tells whether execlp succeeds. -/
def runSourceStage (dupRet close1Ret close2Ret : Int) (execOk : String → Bool) :
    ProcResult × List (StdStream × String) :=
  match check_sys_return dupRet "@printenv: Error when duplicating pipe" with
  | some (r, m) => (r, [m])
  | none =>
  match check_sys_return close1Ret "@printenv: Error when closing read side of pipe" with
  | some (r, m) => (r, [m])
  | none =>
  match check_sys_return close2Ret "@printenv: Error when closing write side of pipe" with
  | some (r, m) => (r, [m])
  | none =>
    if execOk "printenv" then
      (ProcResult.execed "printenv" ["printenv"], [])
    else
      (ProcResult.exited 1, [(StdStream.stderr, "Problem with call to printenv")])

/-- The grep child body (lines 137-161 of digenv.c): dup2 stdin, close,
dup2 stdout, close, each checked, then execvp("grep", argv) with the
whole original argv; if execvp returns, perror and exit 1. -/
def runGrepStage (dup1Ret close1Ret dup2Ret close2Ret : Int) (argv : List String)
    (execOk : String → Bool) : ProcResult × List (StdStream × String) :=
  match check_sys_return dup1Ret "@grep: Error when duplicating read side of pipe" with
  | some (r, m) => (r, [m])
  | none =>
  match check_sys_return close1Ret "@grep: Error when closing read side of pipe" with
  | some (r, m) => (r, [m])
  | none =>
  match check_sys_return dup2Ret "@grep: Error when duplicating read side of pipe" with
  | some (r, m) => (r, [m])
  | none =>
  match check_sys_return close2Ret "@grep: Error when closing read side of pipe" with
  | some (r, m) => (r, [m])
  | none =>
    if execOk "grep" then
      (ProcResult.execed "grep" argv, [])
    else
      (ProcResult.exited 1, [(StdStream.stderr, "Problem with call to grep")])

/-- The sort child body (lines 173-200 of digenv.c): dup2 stdin, close,
dup2 stdout, close, each checked, then execlp("sort", "sort"); if
execlp returns, perror and exit 1. -/
def runSortStage (dup1Ret close1Ret dup2Ret close2Ret : Int)
    (execOk : String → Bool) : ProcResult × List (StdStream × String) :=
  match check_sys_return dup1Ret "@sort: Error when duplicating read side of pipe" with
  | some (r, m) => (r, [m])
  | none =>
  match check_sys_return close1Ret "@sort: Error when closing write side of pipe" with
  | some (r, m) => (r, [m])
  | none =>
  match check_sys_return dup2Ret "@sort: Error when duplicating read side of pipe" with
  | some (r, m) => (r, [m])
  | none =>
  match check_sys_return close2Ret "@sort: Error when closing write side of pipe" with
  | some (r, m) => (r, [m])
  | none =>
    if execOk "sort" then
      (ProcResult.execed "sort" ["sort"], [])
    else
      (ProcResult.exited 1, [(StdStream.stderr, "Problem with call to sort")])

/-- The sink (pager) child body (lines 230-252 of digenv.c): dup2 of
the read side onto stdin and one close, each checked, then the
pager-resolution block pagerChain. -/
def runSinkStage (dupRet closeRet : Int) (pagerEnv : Option String)
    (execOk : String → Bool) : ProcResult × List SinkEvent :=
  match check_sys_return dupRet "@pager: Error when duplicating read side of pipe" with
  | some (r, m) => (r, [SinkEvent.wrote m.1 m.2])
  | none =>
  match check_sys_return closeRet "@pager: Error when closing write side of pipe" with
  | some (r, m) => (r, [SinkEvent.wrote m.1 m.2])
  | none => pagerChain pagerEnv execOk

/-- One end of one of the three pipes of digenv.c: the pipe index into
the pipes array together with the PIPE_IN or PIPE_OUT side. -/
inductive PipeEnd
  | pin
  | pout
deriving DecidableEq

/-- A channel end held by a process: pipe index and side. -/
abbrev ChannelEnd := Nat × PipeEnd

/-- The descriptors every process holds right after the loop at lines
95-99 of digenv.c has created all three pipes: both ends of each. -/
def initialEnds : List ChannelEnd :=
  [(0, PipeEnd.pin), (0, PipeEnd.pout), (1, PipeEnd.pin), (1, PipeEnd.pout),
   (2, PipeEnd.pin), (2, PipeEnd.pout)]

/-- Closing both ends of pipe i, in the order the source closes them:
first PIPE_IN, then PIPE_OUT. -/
def closeBoth (s : List ChannelEnd) (i : Nat) : List ChannelEnd :=
  (s.erase (i, PipeEnd.pin)).erase (i, PipeEnd.pout)

/-- The value of cur after the printenv fork: the source sets cur to 0
and increments it once (line 128). -/
def curAfterPrintenv : Nat := 1

/-- The value of cur after the grep branch: incremented once more when
grep runs (line 163), unchanged otherwise. -/
def curAfterGrep (grepb : Bool) : Nat :=
  if grepb then curAfterPrintenv + 1 else curAfterPrintenv

/-- The value of cur after the sort fork (line 202). -/
def curAfterSort (grepb : Bool) : Nat := curAfterGrep grepb + 1

/-- The value of cur after the pager fork (line 255). -/
def curAfterPager (grepb : Bool) : Nat := curAfterSort grepb + 1

/-- The parent descriptor set after the grep branch: when grep runs,
the parent closes both ends of pipes[cur-2] (lines 169-172 of
digenv.c); when it does not, nothing is closed yet. -/
def parentOpenAfterGrep (grepb : Bool) : List ChannelEnd :=
  if grepb then closeBoth initialEnds (curAfterGrep grepb - 2) else initialEnds

/-- The parent descriptor set after the sort spawn: both ends of
pipes[cur-2] closed (lines 207-210 of digenv.c). -/
def parentOpenAfterSort (grepb : Bool) : List ChannelEnd :=
  closeBoth (parentOpenAfterGrep grepb) (curAfterSort grepb - 2)

/-- The parent descriptor set after the pager spawn, i.e. when the
parent starts reaping: both ends of pipes[cur-2] closed (lines 260-263
of digenv.c). -/
def parentOpenAfterPager (grepb : Bool) : List ChannelEnd :=
  closeBoth (parentOpenAfterSort grepb) (curAfterPager grepb - 2)

/-- The channel ends each child still holds when it reaches its exec
call, computed from the parent descriptor set it inherited at fork time
and the close calls in its own body.  Descriptors 0 and 1 themselves
(the wired standard streams) are not channel ends and are not listed;
the original pipe descriptors that were duplicated onto them are.
From digenv.c: the printenv child (forked before any parent close)
closes both ends of pipe 0 after duplicating its write side; the grep
child (also forked before any parent close, cur = 1) closes
pipes[cur-1][PIPE_OUT] and pipes[cur][PIPE_IN]; the sort child inherits
the parent set after the grep branch and closes pipes[cur-1][PIPE_OUT]
and pipes[cur][PIPE_IN]; the pager child inherits the parent set after
the sort spawn and closes pipes[cur-1][PIPE_OUT] only. -/
def childHeldAtExec (grepb : Bool) : Role → List ChannelEnd
  | .source => (initialEnds.erase (0, PipeEnd.pin)).erase (0, PipeEnd.pout)
  | .filter =>
      (initialEnds.erase (curAfterPrintenv - 1, PipeEnd.pout)).erase
        (curAfterPrintenv, PipeEnd.pin)
  | .sortStage =>
      ((parentOpenAfterGrep grepb).erase (curAfterGrep grepb - 1, PipeEnd.pout)).erase
        (curAfterGrep grepb, PipeEnd.pin)
  | .sink =>
      (parentOpenAfterSort grepb).erase (curAfterSort grepb - 1, PipeEnd.pout)

/-- C1: evaluation of the wait loop at the failing input.  One child is
terminated by signal 9 (pid 42) and every other child exits 0, yet the
recorded aggregate status is 0, not 9: the WIFSIGNALED branch of
digenv.c writes `exit_value == child_status;`, a comparison with no
effect, where an assignment was clearly intended (the WIFEXITED branch
assigns, and the header comment promises a non-zero exit for a
signal-terminated child). -/
theorem c1_signal_status_eval :
    (reapAll [ChildOutcome.signaled 9 42, ChildOutcome.exited 0 7,
              ChildOutcome.exited 0 8]).1 = 0 := by
  decide

/-- C2 counterexample: with reap order [exited 2 (pid 10),
exited 3 (pid 11)], the second failing child produces no diagnostic at
all (the printf is inside the guard that requires no recorded failure),
refuting "every later failure is still reported"; and with reap order
[signaled 9 (pid 1), exited 3 (pid 2)], the final status is 3,
determined by the second observed failure, refuting "only the first
observed failure determines the final aggregate status". -/
theorem c2_later_failures_cex :
    (reapAll [ChildOutcome.exited 2 10, ChildOutcome.exited 3 11]).2
        = [⟨StdStream.stdout, DiagKind.exitFailure, 2, 10⟩] ∧
    (¬ ∃ d ∈ (reapAll [ChildOutcome.exited 2 10, ChildOutcome.exited 3 11]).2,
        d.pid = 11) ∧
    (reapAll [ChildOutcome.signaled 9 1, ChildOutcome.exited 3 2]).1 = 3 := by
  decide

/-- C2 (amended): the final aggregate status is the exit code of the
first child, in reap order, that exited normally with a non-zero code;
signal-terminated children reaped before it are reported but never
change the status, and children reaped after it are neither reported
nor change the status. -/
theorem c2_first_failure (pre post : List ChildOutcome) (c p : Nat)
    (hpre : ∀ oc ∈ pre, isNonzeroExit oc = false) (hc : c ≠ 0) :
    reapAll (pre ++ ChildOutcome.exited c p :: post)
      = (c, (reapAll pre).2 ++ [⟨StdStream.stdout, DiagKind.exitFailure, c, p⟩]) := by
  have h3 : reapList 0 (ChildOutcome.exited c p :: post)
      = (c, [⟨StdStream.stdout, DiagKind.exitFailure, c, p⟩]) := by
    simp [reapList, reapStep, hc, reapList_of_ne c post hc]
  unfold reapAll
  rw [reapList_append, reapList_clean_fst pre hpre, h3]

/-- C2 witness: the amended theorem applied at a concrete reap order
with a leading signal termination and clean exit, a first non-zero
normal exit, and a later failure. -/
theorem c2_first_failure_witness :
    reapAll [ChildOutcome.signaled 9 5, ChildOutcome.exited 0 6,
             ChildOutcome.exited 3 7, ChildOutcome.exited 4 8]
      = (3, (reapAll [ChildOutcome.signaled 9 5, ChildOutcome.exited 0 6]).2
            ++ [⟨StdStream.stdout, DiagKind.exitFailure, 3, 7⟩]) :=
  c2_first_failure [ChildOutcome.signaled 9 5, ChildOutcome.exited 0 6]
    [ChildOutcome.exited 4 8] 3 7 (by decide) (by decide)

/-- C5 counterexample: in the 3-stage topology (no arguments) the
parent still holds both ends of the unused third pipe when it starts
reaping - the source always allocates three pipes but the parent close
sequence only reaches pipes 0 and 1 when grep is skipped. -/
theorem c5_parent_leak_cex :
    parentOpenAfterPager false = [(2, PipeEnd.pin), (2, PipeEnd.pout)] ∧
    parentOpenAfterPager false ≠ [] := by
  decide

/-- C5 (amended): in the 4-stage topology the parent has closed both
ends of all three pipes before it starts reaping; in the 3-stage
topology it has closed both ends of the two pipes the stages use, but
both ends of the unused third pipe remain open in the parent. -/
theorem c5_parent_descriptor_closure :
    parentOpenAfterPager true = [] ∧
    parentOpenAfterPager false = [(2, PipeEnd.pin), (2, PipeEnd.pout)] := by
  decide

/-- C6 counterexample: in the 4-stage topology the printenv child still
holds both ends of pipe 2 - a channel belonging to neither of its
immediate neighbours - at its exec call, and the grep child still holds
the original read-side descriptor of pipe 0 that it duplicated onto its
standard input. -/
theorem c6_open_ends_cex :
    (2, PipeEnd.pin) ∈ childHeldAtExec true Role.source ∧
    (2, PipeEnd.pout) ∈ childHeldAtExec true Role.source ∧
    (0, PipeEnd.pin) ∈ childHeldAtExec true Role.filter := by
  decide

/-- C6 (amended): each child closes only the ends its own body names:
the printenv child closes both ends of its own pipe (including the
descriptor it just duplicated); the grep and sort children close the
write end of their input pipe and the read end of their output pipe;
the pager child closes the write end of its input pipe.  Every other
inherited channel end - the duplicated originals of the non-source
stages and both ends of every pipe still open in the parent at fork
time - remains open at the exec call.  The six cases below enumerate
the exact set of channel ends each child still holds at exec, per
topology. -/
theorem c6_child_close_pattern :
    childHeldAtExec true Role.source
      = [(1, PipeEnd.pin), (1, PipeEnd.pout), (2, PipeEnd.pin), (2, PipeEnd.pout)] ∧
    childHeldAtExec false Role.source
      = [(1, PipeEnd.pin), (1, PipeEnd.pout), (2, PipeEnd.pin), (2, PipeEnd.pout)] ∧
    childHeldAtExec true Role.filter
      = [(0, PipeEnd.pin), (1, PipeEnd.pout), (2, PipeEnd.pin), (2, PipeEnd.pout)] ∧
    childHeldAtExec true Role.sortStage = [(1, PipeEnd.pin), (2, PipeEnd.pout)] ∧
    childHeldAtExec false Role.sortStage
      = [(0, PipeEnd.pin), (1, PipeEnd.pout), (2, PipeEnd.pin), (2, PipeEnd.pout)] ∧
    childHeldAtExec true Role.sink = [(2, PipeEnd.pin)] ∧
    childHeldAtExec false Role.sink
      = [(1, PipeEnd.pin), (2, PipeEnd.pin), (2, PipeEnd.pout)] := by
  decide

/-- C3: with one or more pipeline arguments the spawned topology has
exactly 4 stages and the filter stage is passed exactly those arguments
(positions 1 onward of its exec vector), unmodified and in order; with
zero arguments the topology has exactly 3 stages and no filter stage is
spawned. -/
theorem c3_topology (argv0 : String) (args : List String) :
    (args ≠ [] →
      (digenvStages (argv0 :: args)).length = 4 ∧
      ((digenvStages (argv0 :: args)).filter
          (fun s => decide (s.role = Role.filter))).map (fun s => s.argv.drop 1)
        = [args]) ∧
    (args = [] →
      (digenvStages (argv0 :: args)).length = 3 ∧
      ∀ s ∈ digenvStages (argv0 :: args), s.role ≠ Role.filter) := by
  constructor
  · intro h
    cases args with
    | nil => exact absurd rfl h
    | cons a as =>
        have hg : grepFlag (as.length + 1 + 1) = true := by
          simp [grepFlag]
        simp [digenvStages, hg]
  · intro h
    subst h
    have hg0 : grepFlag 1 = false := rfl
    refine ⟨by simp [digenvStages, hg0], ?_⟩
    intro s hs
    simp [digenvStages, hg0] at hs
    rcases hs with rfl | rfl | rfl <;> simp

/-- C3 witness: the topology theorem applied to a one-argument
invocation and to a zero-argument invocation. -/
theorem c3_topology_witness :
    (digenvStages ["digenv", "PATH"]).length = 4 ∧
    (digenvStages ["digenv"]).length = 3 :=
  ⟨((c3_topology "digenv" ["PATH"]).1 (by simp)).1,
   ((c3_topology "digenv" []).2 rfl).1⟩

/-- C9: whenever the filter stage is spawned, the exec vector handed to
the filter program is the entire original argument vector of the
pipeline (execvp("grep", argv) in digenv.c): its zeroth slot is the
invocation name of the pipeline itself, not the filter tool, and
positions 1 onward are the user arguments unchanged. -/
theorem c9_filter_argv (argv0 : String) (args : List String) (h : args ≠ []) :
    ((digenvStages (argv0 :: args)).filter
        (fun s => decide (s.role = Role.filter))).map (fun s => s.argv)
      = [argv0 :: args] ∧
    ((digenvStages (argv0 :: args)).filter
        (fun s => decide (s.role = Role.filter))).map (fun s => s.argv.head?)
      = [some argv0] ∧
    ((digenvStages (argv0 :: args)).filter
        (fun s => decide (s.role = Role.filter))).map (fun s => s.argv.drop 1)
      = [args] := by
  cases args with
  | nil => exact absurd rfl h
  | cons a as =>
      have hg : grepFlag (as.length + 1 + 1) = true := by
        simp [grepFlag]
      simp [digenvStages, hg]

/-- C9 witness: the filter stage of digenv PATH receives the exec
vector [digenv, PATH]. -/
theorem c9_filter_argv_witness :
    ((digenvStages ["digenv", "PATH"]).filter
        (fun s => decide (s.role = Role.filter))).map (fun s => s.argv)
      = [["digenv", "PATH"]] :=
  (c9_filter_argv "digenv" ["PATH"] (by simp)).1

/-- C4 counterexample: when the pager variable is set to the empty
string (getenv returns a non-null empty string), the sink stage still
attempts the empty program name first - digenv.c tests only whether
getenv returned null, not whether the value is non-empty - refuting
"attempted exactly when that variable is set and non-empty". -/
theorem c4_empty_pager_cex :
    sinkAttempts (some "") (fun s => s == "less") = ["", "less"] ∧
    (sinkAttempts (some "") (fun s => s == "less")).head? = some "" := by
  decide

/-- C4 (amended): pager candidates are attempted in the fixed priority
order given by pagerCandidates - the program named by the pager
variable first exactly when that variable is set (even to the empty
string), then less, then more - stopping at the first program that
execs; if no attempt succeeds the stage writes the failure report to
stderr and exits with status 1. -/
theorem c4_pager_order (pagerEnv : Option String) (execOk : String → Bool) :
    sinkAttempts pagerEnv execOk
      = ((pagerCandidates pagerEnv).takeWhile (fun c => ! execOk c))
        ++ ((pagerCandidates pagerEnv).find? execOk).toList ∧
    (pagerChain pagerEnv execOk).1
      = ((pagerCandidates pagerEnv).find? execOk).elim
          (ProcResult.exited 1) (fun p => ProcResult.execed p [p]) ∧
    (((pagerCandidates pagerEnv).find? execOk) = none →
      (pagerChain pagerEnv execOk).1 = ProcResult.exited 1 ∧
      SinkEvent.wrote StdStream.stderr "Problem with call to pager"
        ∈ (pagerChain pagerEnv execOk).2) := by
  cases pagerEnv with
  | none =>
      by_cases hl : execOk "less" <;> by_cases hm : execOk "more" <;>
        simp [pagerChain, sinkAttempts, pagerCandidates, attemptOf, hl, hm]
  | some p =>
      by_cases hp : execOk p <;> by_cases hl : execOk "less" <;>
        by_cases hm : execOk "more" <;>
          simp [pagerChain, sinkAttempts, pagerCandidates, attemptOf, hp, hl, hm]

/-- C4 witness: the amended theorem applied with the pager variable set
to a program that does not exec and with no fallback available: the
stage exits 1 and the failure report is among its events. -/
theorem c4_pager_order_witness :
    (pagerChain (some "nosuch") (fun _ => false)).1 = ProcResult.exited 1 ∧
    SinkEvent.wrote StdStream.stderr "Problem with call to pager"
      ∈ (pagerChain (some "nosuch") (fun _ => false)).2 :=
  (c4_pager_order (some "nosuch") (fun _ => false)).2.2 rfl

/-- C10: whenever the pager variable is set - to any value, including
the empty string or the name of a program that cannot be executed - the
first event of the sink stage is the printf of "Found PAGER: " followed
by the value, written to standard output, before any exec attempt. -/
theorem c10_found_pager (p : String) (execOk : String → Bool) :
    ((pagerChain (some p) execOk).2).head?
      = some (SinkEvent.wrote StdStream.stdout ("Found PAGER: " ++ p)) := by
  by_cases hp : execOk p <;> by_cases hl : execOk "less" <;>
    by_cases hm : execOk "more" <;> simp [pagerChain, hp, hl, hm]

/-- The launcher invariant for a child body result: control never falls
back into the pipeline-builder code of main, and the process either
exited with status 1 or had its image replaced by some program. -/
def stageOk (r : ProcResult) : Prop :=
  r ≠ ProcResult.fellThrough ∧
    (r = ProcResult.exited 1 ∨ ∃ prog argv, r = ProcResult.execed prog argv)

theorem stageOk_exited1 : stageOk (ProcResult.exited 1) :=
  ⟨by simp, Or.inl rfl⟩

theorem stageOk_execed (prog : String) (argv : List String) :
    stageOk (ProcResult.execed prog argv) :=
  ⟨by simp, Or.inr ⟨prog, argv, rfl⟩⟩

theorem pagerChain_stageOk (pagerEnv : Option String) (execOk : String → Bool) :
    stageOk (pagerChain pagerEnv execOk).1 := by
  cases pagerEnv with
  | none =>
      by_cases hl : execOk "less" <;> by_cases hm : execOk "more" <;>
        simp [pagerChain, hl, hm, stageOk_exited1, stageOk_execed]
  | some p =>
      by_cases hp : execOk p <;> by_cases hl : execOk "less" <;>
        by_cases hm : execOk "more" <;>
          simp [pagerChain, hp, hl, hm, stageOk_exited1, stageOk_execed]

theorem runSourceStage_stageOk (d c1 c2 : Int) (execOk : String → Bool) :
    stageOk (runSourceStage d c1 c2 execOk).1 := by
  by_cases h1 : d = -1 <;> by_cases h2 : c1 = -1 <;> by_cases h3 : c2 = -1 <;>
    by_cases he : execOk "printenv" <;>
      simp [runSourceStage, check_sys_return, h1, h2, h3, he,
        stageOk_exited1, stageOk_execed]

theorem runGrepStage_stageOk (d1 c1 d2 c2 : Int) (argv : List String)
    (execOk : String → Bool) :
    stageOk (runGrepStage d1 c1 d2 c2 argv execOk).1 := by
  by_cases h1 : d1 = -1 <;> by_cases h2 : c1 = -1 <;> by_cases h3 : d2 = -1 <;>
    by_cases h4 : c2 = -1 <;> by_cases he : execOk "grep" <;>
      simp [runGrepStage, check_sys_return, h1, h2, h3, h4, he,
        stageOk_exited1, stageOk_execed]

theorem runSortStage_stageOk (d1 c1 d2 c2 : Int) (execOk : String → Bool) :
    stageOk (runSortStage d1 c1 d2 c2 execOk).1 := by
  by_cases h1 : d1 = -1 <;> by_cases h2 : c1 = -1 <;> by_cases h3 : d2 = -1 <;>
    by_cases h4 : c2 = -1 <;> by_cases he : execOk "sort" <;>
      simp [runSortStage, check_sys_return, h1, h2, h3, h4, he,
        stageOk_exited1, stageOk_execed]

theorem runSinkStage_stageOk (d c : Int) (pagerEnv : Option String)
    (execOk : String → Bool) :
    stageOk (runSinkStage d c pagerEnv execOk).1 := by
  by_cases h1 : d = -1
  · simp [runSinkStage, check_sys_return, h1, stageOk_exited1]
  · by_cases h2 : c = -1
    · simp [runSinkStage, check_sys_return, h1, h2, stageOk_exited1]
    · simpa [runSinkStage, check_sys_return, h1, h2]
        using pagerChain_stageOk pagerEnv execOk

/-- C7: every stage child body - for every combination of system call
return values, argument vector, pager environment, and executability of
programs - either replaces its process image with some target program
or terminates with exit status 1; in no case does control fall out of
the child branch back into the pipeline-builder code of main. -/
theorem c7_stage_never_returns :
    (∀ d c1 c2 execOk, stageOk (runSourceStage d c1 c2 execOk).1) ∧
    (∀ d1 c1 d2 c2 argv execOk, stageOk (runGrepStage d1 c1 d2 c2 argv execOk).1) ∧
    (∀ d1 c1 d2 c2 execOk, stageOk (runSortStage d1 c1 d2 c2 execOk).1) ∧
    (∀ d c pagerEnv execOk, stageOk (runSinkStage d c pagerEnv execOk).1) :=
  ⟨runSourceStage_stageOk, runGrepStage_stageOk,
   runSortStage_stageOk, runSinkStage_stageOk⟩

/-- C8 counterexample: a child that exits with code 3 (pid 10), reaped
first, produces its diagnostic via printf - on the output stream - and
no diagnostic of this run is on the error stream, refuting "the first
failing child produces a diagnostic on the error stream". -/
theorem c8_stdout_cex :
    (reapAll [ChildOutcome.exited 3 10]).2
      = [⟨StdStream.stdout, DiagKind.exitFailure, 3, 10⟩] ∧
    ∀ d ∈ (reapAll [ChildOutcome.exited 3 10]).2,
      d.stream ≠ StdStream.stderr := by
  decide

/-- C8 (amended): every internal failure detected by check_sys_return
produces its human-readable message on the error stream (and the
process exits 1), while the first failing or signal-terminated child
produces a diagnostic that includes the pid of the offending process
but is written with printf to the output stream, not the error
stream. -/
theorem c8_diagnostics (ret : Int) (s : String) (pre post : List ChildOutcome)
    (oc : ChildOutcome) (hret : ret = -1)
    (hpre : ∀ x ∈ pre, x.isCleanExit = true) (hoc : oc.isCleanExit = false) :
    check_sys_return ret s
      = some (ProcResult.exited 1, (StdStream.stderr, s)) ∧
    ∃ d ∈ (reapAll (pre ++ oc :: post)).2,
      d.stream = StdStream.stdout ∧ d.pid = oc.pid := by
  constructor
  · subst hret
    simp [check_sys_return]
  · have hpre2 : ∀ x ∈ pre, isNonzeroExit x = false := by
      intro x hx
      have hcl := hpre x hx
      cases x with
      | exited c p =>
          cases c with
          | zero => simp [isNonzeroExit]
          | succ n => simp [ChildOutcome.isCleanExit] at hcl
      | signaled sg p => simp [isNonzeroExit]
    unfold reapAll
    rw [reapList_append, reapList_clean_fst pre hpre2]
    cases oc with
    | exited c p =>
        have hc : c ≠ 0 := by
          intro h0
          subst h0
          simp [ChildOutcome.isCleanExit] at hoc
        refine ⟨⟨StdStream.stdout, DiagKind.exitFailure, c, p⟩, ?_, rfl, rfl⟩
        simp [reapList, reapStep, hc]
    | signaled sg p =>
        refine ⟨⟨StdStream.stdout, DiagKind.signalFailure, sg, p⟩, ?_, rfl, rfl⟩
        simp [reapList, reapStep]

/-- C8 witness: a failed system call with the pipe-creation message,
and a run whose first failure is a signal termination (pid 4) preceded
by a clean exit: the diagnostic for pid 4 is on the output stream. -/
theorem c8_diagnostics_witness :
    check_sys_return (-1) "Error when creating pipe"
      = some (ProcResult.exited 1, (StdStream.stderr, "Error when creating pipe")) ∧
    ∃ d ∈ (reapAll ([ChildOutcome.exited 0 3]
        ++ ChildOutcome.signaled 9 4 :: [ChildOutcome.exited 0 5])).2,
      d.stream = StdStream.stdout ∧ d.pid = (ChildOutcome.signaled 9 4).pid :=
  c8_diagnostics (-1) "Error when creating pipe" [ChildOutcome.exited 0 3]
    [ChildOutcome.exited 0 5] (ChildOutcome.signaled 9 4) rfl
    (by decide) (by decide)
